import Mathlib

/-!
Shallow embedding of the RAG chat request pipeline implemented in
`src/app/api/chat/route.ts` (the `POST` handler).

JavaScript values are modelled as follows: a field that may be absent or
`null` is an `Option`; JS truthiness of a string (`if (s)`) is the test
`s ≠ ""` on a present string; template-literal interpolation of an
`undefined` value renders the text "undefined".  Relevance scores are
only ever copied, never computed with, so they are modelled as `ℚ`.
The three external collaborators (embedding service, MongoDB vector
index, generation service) are modelled by passing the retriever output
(`movies`) as an explicit argument and by recording the string handed to
the embedding call in the result.
-/

namespace ChatRoute

/-- One segment of a segmented ("parts") message:
`{ type: string, text?: string }`. -/
structure Part where
  type : String
  text : Option String
deriving DecidableEq

/-- One inbound message (a Turn):
`{ role: string, content?: string, parts?: Part[] }`.
`content = none` models both an absent field and `null`. -/
structure Msg where
  role : String
  content : Option String
  parts : Option (List Part)
deriving DecidableEq

/-- A MongoDB document identifier; `hex` is its string rendering. -/
structure ObjectId where
  hex : String
deriving DecidableEq

/-- Models `ObjectId.prototype.toString()`. -/
def ObjectId.str (o : ObjectId) : String := o.hex

/-- One document returned by the `$vectorSearch` aggregation after the
`$project` stage (route.ts lines 54-76). -/
structure MovieDoc where
  oid : ObjectId
  title : String
  fullplot : Option String
  plot : Option String
  year : Int
  poster : Option String
  score : ℚ
deriving DecidableEq

/-- JS truthiness of `part.type === 'text' && part.text`
(route.ts lines 32 and 101). -/
def partTextTruthy (p : Part) : Bool :=
  p.type == "text" && p.text.getD "" != ""

/-- `parts.filter(...).map(part => part.text).join(' ')`
(route.ts lines 31-34 and 100-103). -/
def partsJoin (ps : List Part) : String :=
  String.intercalate " " ((ps.filter partTextTruthy).map (fun p => p.text.getD ""))

/-- The strict normalization of the last message
(route.ts lines 27-37): flat `content` wins whenever it is neither
`undefined` nor `null` (even `""`); otherwise a `parts` array is
extracted; otherwise the handler throws `Invalid message format`. -/
def normalizeStrict (lastMessage : Msg) : Except String String :=
  match lastMessage.content with
  | some c => Except.ok c
  | none =>
    match lastMessage.parts with
    | some ps => Except.ok (partsJoin ps)
    | none => Except.error "Invalid message format: missing content or parts"

/-- Models `String.prototype.trim()`: strips leading and trailing
whitespace (route.ts line 39 uses it only for the emptiness test). -/
def jsTrim (s : String) : String :=
  ⟨((s.data.dropWhile Char.isWhitespace).reverse.dropWhile Char.isWhitespace).reverse⟩

/-- The emptiness guard `if (!userQuery || !userQuery.trim())`
(route.ts lines 39-41): for a string, falsy or whitespace-only is
exactly `jsTrim userQuery = ""`. -/
def checkNonEmpty (userQuery : String) : Except String String :=
  if jsTrim userQuery = "" then Except.error "Empty message content"
  else Except.ok userQuery

/-- Query extraction from the whole message list (route.ts lines 21-41).
An empty list makes `messages[messages.length - 1]` be `undefined`, and
the field access on it throws a `TypeError`, modelled by the first
branch. -/
def extractUserQuery (messages : List Msg) : Except String String :=
  match messages.getLast? with
  | none => Except.error "Cannot read properties of undefined"
  | some lastMessage => (normalizeStrict lastMessage).bind checkNonEmpty

/-- The tolerant per-message normalization used when projecting the
conversation (route.ts lines 94-111).  Note the truthiness test
`if (m.content)`: an empty-string `content` falls through to `parts`. -/
def tolerantContent (m : Msg) : String :=
  match m.content with
  | some c =>
    if c = "" then
      match m.parts with
      | some ps => partsJoin ps
      | none => ""
    else c
  | none =>
    match m.parts with
    | some ps => partsJoin ps
    | none => ""

/-- A `(role, content)` pair sent to the generation service. -/
structure CoreMessage where
  role : String
  content : String
deriving DecidableEq

/-- `messages.filter(m => m.role !== 'system').map(...)`
(route.ts lines 92-111). -/
def coreMessagesOf (messages : List Msg) : List CoreMessage :=
  (messages.filter (fun m => m.role != "system")).map
    (fun m => { role := m.role, content := tolerantContent m })

/-- Template-literal interpolation of a possibly-`undefined` string. -/
def interpOpt : Option String → String
  | some s => s
  | none => "undefined"

/-- JS `a || b` on two possibly-absent strings: returns `b` whenever `a`
is `undefined`, `null` or `""` (route.ts lines 80 and 122). -/
def jsOrOpt (a b : Option String) : Option String :=
  match a with
  | some s => if s = "" then b else some s
  | none => b

/-- One paragraph of the grounding context (route.ts line 80). -/
def movieParagraph (movie : MovieDoc) : String :=
  "Title: " ++ movie.title ++ " (" ++ toString movie.year ++ ")\nPlot: " ++
    interpOpt (jsOrOpt movie.fullplot movie.plot) ++ "\n"

/-- `movies.map(...).join('\n---\n')` (route.ts lines 79-81). -/
def contextOf (movies : List MovieDoc) : String :=
  String.intercalate "\n---\n" (movies.map movieParagraph)

/-- The system instruction (route.ts lines 83-88). -/
def systemPromptOf (movies : List MovieDoc) : String :=
  "You are a helpful movie assistant. Use the following movie context to answer the user\x27s question.\nIf the answer is not in the context, say you don\x27t know based on the available information.\nAlways mention the movie title when discussing it.\n\nContext:\n"
    ++ contextOf movies

/-- One element of the `sources` evidence payload; the field `oid`
models the JSON key `_id` (route.ts lines 119-126). -/
structure SanitizedMovie where
  oid : String
  title : String
  fullplot : Option String
  year : Int
  poster : Option String
  score : ℚ
deriving DecidableEq

/-- Sanitization of one retrieved document (route.ts lines 119-126). -/
def sanitizeMovie (movie : MovieDoc) : SanitizedMovie :=
  { oid := movie.oid.str
    title := movie.title
    fullplot := jsOrOpt movie.fullplot movie.plot
    year := movie.year
    poster := movie.poster
    score := movie.score }

/-- `movies.map(movie => ({...}))` (route.ts line 119). -/
def sanitizeMovies (movies : List MovieDoc) : List SanitizedMovie :=
  movies.map sanitizeMovie

/-- The observable outcome of a successful request: the HTTP status, the
string handed to the embedding call, the system instruction, the
projected conversation, and the single `sources` attachment of
`toUIMessageStreamResponse` (route.ts lines 113-133). -/
structure PostSuccess where
  status : Nat
  embeddingInput : String
  systemPrompt : String
  coreMessages : List CoreMessage
  sources : List SanitizedMovie
deriving DecidableEq

/-- The error envelope produced by the catch-all
(route.ts lines 135-142). -/
structure PostError where
  status : Nat
  error : String
deriving DecidableEq

/-- The `POST` handler, with the retriever output `movies` passed as an
explicit argument (the embedding and Mongo calls are external and, when
they succeed, do not affect control flow). -/
def POST (messages : List Msg) (movies : List MovieDoc) :
    Except PostError PostSuccess :=
  match extractUserQuery messages with
  | Except.error e => Except.error { status := 500, error := e }
  | Except.ok userQuery =>
    Except.ok
      { status := 200
        embeddingInput := userQuery
        systemPrompt := systemPromptOf movies
        coreMessages := coreMessagesOf messages
        sources := sanitizeMovies movies }

/-- `startsWithL xs ys` is true when `xs` is an initial run of `ys`. -/
def startsWithL : List Char → List Char → Bool
  | [], _ => true
  | _ :: _, [] => false
  | a :: as, b :: bs => a == b && startsWithL as bs

/-- `containsSubL needle hay` is true when `needle` occurs contiguously
inside `hay`. -/
def containsSubL (needle : List Char) : List Char → Bool
  | [] => needle.isEmpty
  | c :: rest => startsWithL needle (c :: rest) || containsSubL needle rest

/-- Substring test on strings, used to compare error messages. -/
def containsSub (hay needle : String) : Bool :=
  containsSubL needle.data hay.data


/-! ## Inversion and evaluation lemmas for the handler -/

lemma extractUserQuery_eq_bind {messages : List Msg} {m : Msg}
    (hg : messages.getLast? = some m) :
    extractUserQuery messages = (normalizeStrict m).bind checkNonEmpty := by
  unfold extractUserQuery
  rw [hg]

lemma extractUserQuery_invalid {messages : List Msg} {m : Msg}
    (hg : messages.getLast? = some m) (hc : m.content = none)
    (hp : m.parts = none) :
    extractUserQuery messages =
      Except.error "Invalid message format: missing content or parts" := by
  have hns : normalizeStrict m =
      Except.error "Invalid message format: missing content or parts" := by
    unfold normalizeStrict
    rw [hc, hp]
  rw [extractUserQuery_eq_bind hg, hns]
  rfl

lemma extractUserQuery_empty {messages : List Msg} {m : Msg} {q : String}
    (hg : messages.getLast? = some m)
    (hn : normalizeStrict m = Except.ok q) (ht : jsTrim q = "") :
    extractUserQuery messages = Except.error "Empty message content" := by
  rw [extractUserQuery_eq_bind hg, hn]
  show checkNonEmpty q = Except.error "Empty message content"
  unfold checkNonEmpty
  rw [if_pos ht]

lemma extractUserQuery_ok_inv {messages : List Msg} {q : String}
    (h : extractUserQuery messages = Except.ok q) :
    ∃ m, messages.getLast? = some m ∧ normalizeStrict m = Except.ok q ∧
      jsTrim q ≠ "" := by
  cases hg : messages.getLast? with
  | none =>
    unfold extractUserQuery at h
    rw [hg] at h
    exact Except.noConfusion h
  | some m =>
    rw [extractUserQuery_eq_bind hg] at h
    cases hn : normalizeStrict m with
    | error e =>
      rw [hn] at h
      exact Except.noConfusion h
    | ok q0 =>
      rw [hn] at h
      have h2 : checkNonEmpty q0 = Except.ok q := h
      by_cases ht : jsTrim q0 = ""
      · unfold checkNonEmpty at h2
        rw [if_pos ht] at h2
        exact Except.noConfusion h2
      · unfold checkNonEmpty at h2
        rw [if_neg ht] at h2
        injection h2 with h2
        subst h2
        exact ⟨m, rfl, hn, ht⟩

lemma post_error_of {messages : List Msg} {e : String} (movies : List MovieDoc)
    (h : extractUserQuery messages = Except.error e) :
    POST messages movies = Except.error { status := 500, error := e } := by
  unfold POST
  rw [h]

lemma post_ok_of {messages : List Msg} {q : String} (movies : List MovieDoc)
    (h : extractUserQuery messages = Except.ok q) :
    POST messages movies =
      Except.ok
        { status := 200, embeddingInput := q,
          systemPrompt := systemPromptOf movies,
          coreMessages := coreMessagesOf messages,
          sources := sanitizeMovies movies } := by
  unfold POST
  rw [h]

lemma post_ok_inv {messages : List Msg} {movies : List MovieDoc}
    {s : PostSuccess} (h : POST messages movies = Except.ok s) :
    extractUserQuery messages = Except.ok s.embeddingInput ∧
    s.status = 200 ∧ s.systemPrompt = systemPromptOf movies ∧
    s.coreMessages = coreMessagesOf messages ∧
    s.sources = sanitizeMovies movies := by
  cases hq : extractUserQuery messages with
  | error e =>
    rw [post_error_of movies hq] at h
    exact Except.noConfusion h
  | ok q =>
    rw [post_ok_of movies hq] at h
    injection h with h
    subst h
    exact ⟨rfl, rfl, rfl, rfl, rfl⟩

lemma partTextTruthy_eq (p : Part) :
    partTextTruthy p =
      (decide (p.type = "text") && decide (p.text ≠ none) &&
        decide (p.text ≠ some "")) := by
  rw [Bool.eq_iff_iff]
  rcases p with ⟨t, text⟩
  cases text with
  | none => simp [partTextTruthy]
  | some s => simp [partTextTruthy, and_assoc]

/-! ## Claims -/

/-- Claim C1: on every successful request the response carries exactly
one structured evidence payload whose elements are, in retrieval rank
order, the sanitized candidates with `_id` the stringified identifier
and `fullplot` falling back to the short `plot` when the long-form
synopsis is absent; the array is a function of that request's retrieval
output alone. -/
theorem c1_evidence_payload (messages : List Msg) (movies : List MovieDoc)
    (s : PostSuccess) (h : POST messages movies = Except.ok s) :
    s.sources = sanitizeMovies movies ∧
    sanitizeMovies movies = movies.map sanitizeMovie ∧
    (∀ movie : MovieDoc, sanitizeMovie movie =
      { oid := movie.oid.str, title := movie.title,
        fullplot := jsOrOpt movie.fullplot movie.plot,
        year := movie.year, poster := movie.poster,
        score := movie.score }) ∧
    (∀ movie : MovieDoc, movie.fullplot = none →
      (sanitizeMovie movie).fullplot = movie.plot) := by
  refine ⟨(post_ok_inv h).2.2.2.2, rfl, fun movie => rfl, fun movie hm => ?_⟩
  simp [sanitizeMovie, jsOrOpt, hm]

theorem c1_evidence_payload_witness :
    POST [{ role := "user", content := some "hi", parts := none }]
        [{ oid := ⟨"507f1f77bcf86cd799439011"⟩, title := "Test Movie",
           fullplot := none, plot := some "Short plot",
           year := 2023, poster := some "poster.jpg", score := 1 }] =
      Except.ok
        { status := 200, embeddingInput := "hi",
          systemPrompt := systemPromptOf
            [{ oid := ⟨"507f1f77bcf86cd799439011"⟩, title := "Test Movie",
               fullplot := none, plot := some "Short plot",
               year := 2023, poster := some "poster.jpg", score := 1 }],
          coreMessages := [{ role := "user", content := "hi" }],
          sources := [{ oid := "507f1f77bcf86cd799439011",
                        title := "Test Movie",
                        fullplot := some "Short plot", year := 2023,
                        poster := some "poster.jpg", score := 1 }] } ∧
    ({ status := 200, embeddingInput := "hi",
       systemPrompt := systemPromptOf
         [{ oid := ⟨"507f1f77bcf86cd799439011"⟩, title := "Test Movie",
            fullplot := none, plot := some "Short plot",
            year := 2023, poster := some "poster.jpg", score := 1 }],
       coreMessages := [{ role := "user", content := "hi" }],
       sources := [{ oid := "507f1f77bcf86cd799439011",
                     title := "Test Movie",
                     fullplot := some "Short plot", year := 2023,
                     poster := some "poster.jpg", score := 1 }] } :
        PostSuccess).sources =
      sanitizeMovies
        [{ oid := ⟨"507f1f77bcf86cd799439011"⟩, title := "Test Movie",
           fullplot := none, plot := some "Short plot",
           year := 2023, poster := some "poster.jpg", score := 1 }] :=
  ⟨rfl,
    (c1_evidence_payload
      [{ role := "user", content := some "hi", parts := none }]
      [{ oid := ⟨"507f1f77bcf86cd799439011"⟩, title := "Test Movie",
         fullplot := none, plot := some "Short plot",
         year := 2023, poster := some "poster.jpg", score := 1 }]
      { status := 200, embeddingInput := "hi",
        systemPrompt := systemPromptOf
          [{ oid := ⟨"507f1f77bcf86cd799439011"⟩, title := "Test Movie",
             fullplot := none, plot := some "Short plot",
             year := 2023, poster := some "poster.jpg", score := 1 }],
        coreMessages := [{ role := "user", content := "hi" }],
        sources := [{ oid := "507f1f77bcf86cd799439011",
                      title := "Test Movie",
                      fullplot := some "Short plot", year := 2023,
                      poster := some "poster.jpg", score := 1 }] }
      rfl).1⟩

/-- Claim C2: when the last Turn has no flat content but has a segmented
parts list, the extracted text is the single-space join of exactly the
non-empty text segments, in list order, with non-text segments silently
skipped; the spec's example yields "Hello World". -/
theorem c2_segmented_extraction (m : Msg) (ps : List Part)
    (hc : m.content = none) (hp : m.parts = some ps) :
    normalizeStrict m =
      Except.ok (String.intercalate " "
        ((ps.filter (fun p =>
            decide (p.type = "text") && decide (p.text ≠ none) &&
              decide (p.text ≠ some ""))).map
          (fun p => p.text.getD ""))) ∧
    normalizeStrict
      { role := "user", content := none,
        parts := some [{ type := "text", text := some "Hello" },
                       { type := "text", text := some "World" },
                       { type := "other", text := none }] } =
      Except.ok "Hello World" := by
  constructor
  · have hns : normalizeStrict m = Except.ok (partsJoin ps) := by
      unfold normalizeStrict
      rw [hc, hp]
    rw [hns]
    unfold partsJoin
    rw [List.filter_congr (fun p _ => partTextTruthy_eq p)]
  · rfl

theorem c2_segmented_extraction_witness :
    normalizeStrict
      { role := "user", content := none,
        parts := some [{ type := "text", text := some "Hello" },
                       { type := "text", text := some "World" },
                       { type := "other", text := none }] } =
      Except.ok "Hello World" :=
  (c2_segmented_extraction
    { role := "user", content := none,
      parts := some [{ type := "text", text := some "Hello" },
                     { type := "text", text := some "World" },
                     { type := "other", text := none }] }
    [{ type := "text", text := some "Hello" },
     { type := "text", text := some "World" },
     { type := "other", text := none }] rfl rfl).2

/-- Claim C3: a last Turn with neither usable flat content nor a parts
list yields a 500 envelope whose message contains "Invalid message
format"; a last Turn whose extracted text trims to empty yields a 500
envelope containing "Empty message content"; the two error messages are
distinguishable by those substrings. -/
theorem c3_error_kinds
    (messages₁ messages₂ : List Msg) (movies : List MovieDoc) (m₁ m₂ : Msg)
    (q : String)
    (h₁ : messages₁.getLast? = some m₁) (hc₁ : m₁.content = none)
    (hp₁ : m₁.parts = none)
    (h₂ : messages₂.getLast? = some m₂)
    (hn₂ : normalizeStrict m₂ = Except.ok q) (ht₂ : jsTrim q = "") :
    (∃ err : PostError, POST messages₁ movies = Except.error err ∧
      err.status = 500 ∧
      containsSub err.error "Invalid message format" = true ∧
      containsSub err.error "Empty message content" = false) ∧
    (∃ err : PostError, POST messages₂ movies = Except.error err ∧
      err.status = 500 ∧
      containsSub err.error "Empty message content" = true ∧
      containsSub err.error "Invalid message format" = false) :=
  ⟨⟨{ status := 500,
      error := "Invalid message format: missing content or parts" },
    post_error_of movies (extractUserQuery_invalid h₁ hc₁ hp₁),
    rfl, by decide, by decide⟩,
   ⟨{ status := 500, error := "Empty message content" },
    post_error_of movies (extractUserQuery_empty h₂ hn₂ ht₂),
    rfl, by decide, by decide⟩⟩

theorem c3_error_kinds_witness :
    (∃ err : PostError,
      POST [{ role := "user", content := none, parts := none }] [] =
        Except.error err ∧ err.status = 500 ∧
      containsSub err.error "Invalid message format" = true ∧
      containsSub err.error "Empty message content" = false) ∧
    (∃ err : PostError,
      POST [{ role := "user", content := some "", parts := none }] [] =
        Except.error err ∧ err.status = 500 ∧
      containsSub err.error "Empty message content" = true ∧
      containsSub err.error "Invalid message format" = false) :=
  c3_error_kinds [{ role := "user", content := none, parts := none }]
    [{ role := "user", content := some "", parts := none }] []
    { role := "user", content := none, parts := none }
    { role := "user", content := some "", parts := none } ""
    rfl rfl rfl rfl rfl rfl

/-- Claim C4 counterexample: for a last Turn whose flat content is
"  hello  ", the string handed to the embedding client is the untrimmed
"  hello  ", not the trimmed "hello" the claim requires. -/
theorem c4_trimmed_query_cex :
    POST [{ role := "user", content := some "  hello  ", parts := none }]
        [] =
      Except.ok
        { status := 200, embeddingInput := "  hello  ",
          systemPrompt := systemPromptOf [],
          coreMessages := [{ role := "user", content := "  hello  " }],
          sources := [] } ∧
    jsTrim "  hello  " = "hello" ∧ ("  hello  " : String) ≠ "hello" :=
  ⟨rfl, rfl, by decide⟩

/-- Claim C4 amended: the query handed to the Embedding Client is the
extracted text of the last Turn verbatim (not trimmed); trimming is used
only for the emptiness validation, so the handed text never trims to
empty. -/
theorem c4_trimmed_query_amended (messages : List Msg)
    (movies : List MovieDoc) (s : PostSuccess)
    (h : POST messages movies = Except.ok s) :
    (∃ m, messages.getLast? = some m ∧
      normalizeStrict m = Except.ok s.embeddingInput) ∧
    jsTrim s.embeddingInput ≠ "" := by
  obtain ⟨hq, -, -, -, -⟩ := post_ok_inv h
  obtain ⟨m, hg, hn, ht⟩ := extractUserQuery_ok_inv hq
  exact ⟨⟨m, hg, hn⟩, ht⟩

theorem c4_trimmed_query_amended_witness :
    (∃ m, ([{ role := "user", content := some "  hi  ", parts := none }] :
        List Msg).getLast? = some m ∧
      normalizeStrict m =
        Except.ok (PostSuccess.embeddingInput
          { status := 200, embeddingInput := "  hi  ",
            systemPrompt := systemPromptOf [],
            coreMessages := [{ role := "user", content := "  hi  " }],
            sources := [] })) ∧
    jsTrim (PostSuccess.embeddingInput
      { status := 200, embeddingInput := "  hi  ",
        systemPrompt := systemPromptOf [],
        coreMessages := [{ role := "user", content := "  hi  " }],
        sources := [] }) ≠ "" :=
  c4_trimmed_query_amended
    [{ role := "user", content := some "  hi  ", parts := none }] []
    { status := 200, embeddingInput := "  hi  ",
      systemPrompt := systemPromptOf [],
      coreMessages := [{ role := "user", content := "  hi  " }],
      sources := [] }
    rfl

/-- Claim C5: when the retriever returns an empty candidate list the
request still succeeds: the grounding context block is empty, and the
streaming response carries an empty evidence set instead of an error
envelope. -/
theorem c5_zero_results (messages : List Msg) (q : String)
    (h : extractUserQuery messages = Except.ok q) :
    POST messages [] =
      Except.ok
        { status := 200, embeddingInput := q,
          systemPrompt := systemPromptOf [],
          coreMessages := coreMessagesOf messages,
          sources := [] } ∧
    contextOf [] = "" :=
  ⟨post_ok_of [] h, rfl⟩

theorem c5_zero_results_witness :
    POST [{ role := "user", content := some "a query", parts := none }]
        [] =
      Except.ok
        { status := 200, embeddingInput := "a query",
          systemPrompt := systemPromptOf [],
          coreMessages := coreMessagesOf
            [{ role := "user", content := some "a query", parts := none }],
          sources := [] } ∧
    contextOf [] = "" :=
  c5_zero_results
    [{ role := "user", content := some "a query", parts := none }]
    "a query" rfl

/-- Claim C6 counterexample: two candidates that differ only in their
relevance score produce byte-identical context paragraphs, so the
paragraph cannot contain the candidate's score; on a concrete candidate
the whole grounding block is exactly "Title: T (2000)\nPlot: P\n", which
mentions no score. -/
theorem c6_paragraph_score_cex :
    contextOf [{ oid := ⟨"a"⟩, title := "T", fullplot := some "P",
                 plot := none, year := 2000, poster := none, score := 1 }] =
      "Title: T (2000)\nPlot: P\n" ∧
    contextOf [{ oid := ⟨"a"⟩, title := "T", fullplot := some "P",
                 plot := none, year := 2000, poster := none, score := 0 }] =
      "Title: T (2000)\nPlot: P\n" ∧
    (1 : ℚ) ≠ 0 :=
  ⟨rfl, rfl, by norm_num⟩

/-- Claim C6 amended: the grounding block has one paragraph per
candidate, and each paragraph contains the candidate's title, year and
synopsis (the long-form synopsis, falling back to the short synopsis,
then to the placeholder text "undefined" when both are absent) — but not
the relevance score: the paragraph is independent of the score. -/
theorem c6_paragraph_amended (movies : List MovieDoc) (movie : MovieDoc)
    (q : ℚ) :
    contextOf movies =
      String.intercalate "\n---\n" (movies.map movieParagraph) ∧
    (∃ pre suf, movieParagraph movie = pre ++ movie.title ++ suf) ∧
    (∃ pre suf, movieParagraph movie = pre ++ toString movie.year ++ suf) ∧
    (∃ pre suf, movieParagraph movie =
      pre ++ interpOpt (jsOrOpt movie.fullplot movie.plot) ++ suf) ∧
    interpOpt (jsOrOpt none none) = "undefined" ∧
    movieParagraph { movie with score := q } = movieParagraph movie := by
  refine ⟨rfl, ?_, ?_, ?_, rfl, rfl⟩
  · exact ⟨"Title: ",
      " (" ++ toString movie.year ++ ")\nPlot: " ++
        interpOpt (jsOrOpt movie.fullplot movie.plot) ++ "\n",
      by simp [movieParagraph, String.append_assoc]⟩
  · exact ⟨"Title: " ++ movie.title ++ " (",
      ")\nPlot: " ++ interpOpt (jsOrOpt movie.fullplot movie.plot) ++ "\n",
      by simp [movieParagraph, String.append_assoc]⟩
  · exact ⟨"Title: " ++ movie.title ++ " (" ++ toString movie.year ++
        ")\nPlot: ", "\n",
      by simp [movieParagraph, String.append_assoc]⟩

/-- Claim C7: the projected conversation never contains a system-role
turn; it is exactly the non-system turns, in order, as (role, content)
pairs with content produced by the tolerant normalization pass, and
every non-system input turn appears in it. -/
theorem c7_projection (messages : List Msg) :
    (∀ p ∈ coreMessagesOf messages, p.role ≠ "system") ∧
    coreMessagesOf messages =
      (messages.filter (fun m => m.role != "system")).map
        (fun m => { role := m.role, content := tolerantContent m }) ∧
    (∀ m ∈ messages, m.role ≠ "system" →
      ({ role := m.role, content := tolerantContent m } : CoreMessage) ∈
        coreMessagesOf messages) := by
  refine ⟨?_, rfl, ?_⟩
  · intro p hp
    unfold coreMessagesOf at hp
    obtain ⟨m, hm, rfl⟩ := List.mem_map.1 hp
    have hr := (List.mem_filter.1 hm).2
    simpa using hr
  · intro m hm hrole
    unfold coreMessagesOf
    exact List.mem_map.2 ⟨m, List.mem_filter.2 ⟨hm, by simpa using hrole⟩, rfl⟩

theorem c7_projection_witness :
    ({ role := "user", content := "hi" } : CoreMessage) ∈
      coreMessagesOf
        [{ role := "system", content := some "sys", parts := none },
         { role := "user", content := some "hi", parts := none }] ∧
    ({ role := "user", content := "hi" } : CoreMessage).role ≠ "system" := by
  have h := c7_projection
    [{ role := "system", content := some "sys", parts := none },
     { role := "user", content := some "hi", parts := none }]
  have hmem := h.2.2
    { role := "user", content := some "hi", parts := none }
    (by decide) (by decide)
  exact ⟨hmem, h.1 _ hmem⟩

/-- Claim C8 counterexample: a non-system Turn with flat content "" and
a coexisting parts list is projected to the parts text "hi", not to the
empty flat value the claim requires (the code tests JS truthiness, so ""
does not take precedence). -/
theorem c8_flat_empty_cex :
    tolerantContent
      { role := "user", content := some "",
        parts := some [{ type := "text", text := some "hi" }] } = "hi" ∧
    coreMessagesOf
      [{ role := "user", content := some "",
         parts := some [{ type := "text", text := some "hi" }] }] =
      [{ role := "user", content := "hi" }] ∧
    ("hi" : String) ≠ "" :=
  ⟨rfl, rfl, by decide⟩

/-- Claim C8 amended: in the tolerant projection pass the flat content
takes precedence over a coexisting parts list only when it is truthy
(present and non-empty); an empty-string flat content falls back to the
parts extraction (or to "" when no parts list exists). -/
theorem c8_flat_precedence_amended (m₁ m₂ : Msg) (c : String)
    (hc : m₁.content = some c) (hne : c ≠ "")
    (h₂ : m₂.content = some "") :
    tolerantContent m₁ = c ∧
    tolerantContent m₂ = (match m₂.parts with
      | some ps => partsJoin ps
      | none => "") := by
  constructor
  · unfold tolerantContent
    rw [hc]
    show (if c = "" then _ else c) = c
    rw [if_neg hne]
  · unfold tolerantContent
    rw [h₂]
    rfl

theorem c8_flat_precedence_amended_witness :
    tolerantContent
      { role := "user", content := some "flat",
        parts := some [{ type := "text", text := some "ignored" }] } =
      "flat" ∧
    tolerantContent
      { role := "user", content := some "",
        parts := some [{ type := "text", text := some "fallback" }] } =
      (match (some [{ type := "text", text := some "fallback" }] :
          Option (List Part)) with
        | some ps => partsJoin ps
        | none => "") :=
  c8_flat_precedence_amended
    { role := "user", content := some "flat",
      parts := some [{ type := "text", text := some "ignored" }] }
    { role := "user", content := some "",
      parts := some [{ type := "text", text := some "fallback" }] }
    "flat" rfl (by decide) rfl

/-- Claim C9: the grounding instruction is a deterministic function of
the candidate list alone: any two successful invocations over the same
candidate list produce byte-identical instruction text, namely
`systemPromptOf movies`. -/
theorem c9_deterministic_prompt (messages₁ messages₂ : List Msg)
    (movies : List MovieDoc) (s₁ s₂ : PostSuccess)
    (h₁ : POST messages₁ movies = Except.ok s₁)
    (h₂ : POST messages₂ movies = Except.ok s₂) :
    s₁.systemPrompt = s₂.systemPrompt ∧
    s₁.systemPrompt = systemPromptOf movies := by
  have e₁ := (post_ok_inv h₁).2.2.1
  have e₂ := (post_ok_inv h₂).2.2.1
  exact ⟨e₁.trans e₂.symm, e₁⟩

theorem c9_deterministic_prompt_witness :
    ({ status := 200, embeddingInput := "q one",
       systemPrompt := systemPromptOf [],
       coreMessages := [{ role := "user", content := "q one" }],
       sources := [] } : PostSuccess).systemPrompt =
      ({ status := 200, embeddingInput := "q two",
         systemPrompt := systemPromptOf [],
         coreMessages := [{ role := "user", content := "q two" }],
         sources := [] } : PostSuccess).systemPrompt ∧
    ({ status := 200, embeddingInput := "q one",
       systemPrompt := systemPromptOf [],
       coreMessages := [{ role := "user", content := "q one" }],
       sources := [] } : PostSuccess).systemPrompt = systemPromptOf [] :=
  c9_deterministic_prompt
    [{ role := "user", content := some "q one", parts := none }]
    [{ role := "user", content := some "q two", parts := none }] []
    { status := 200, embeddingInput := "q one",
      systemPrompt := systemPromptOf [],
      coreMessages := [{ role := "user", content := "q one" }],
      sources := [] }
    { status := 200, embeddingInput := "q two",
      systemPrompt := systemPromptOf [],
      coreMessages := [{ role := "user", content := "q two" }],
      sources := [] }
    rfl rfl

/-- Claim C10: a request with an empty messages array yields a 500 JSON
error envelope (the undefined last element makes extraction throw and
the catch-all converts it); in general every request either streams a
200 success or is mapped to the uniform 500 error envelope. -/
theorem c10_uniform_error_envelope (messages : List Msg)
    (movies : List MovieDoc) :
    (∃ err : PostError, POST [] movies = Except.error err ∧
      err.status = 500) ∧
    ((∃ s : PostSuccess, POST messages movies = Except.ok s ∧
        s.status = 200) ∨
     (∃ err : PostError, POST messages movies = Except.error err ∧
        err.status = 500)) := by
  constructor
  · exact ⟨{ status := 500,
             error := "Cannot read properties of undefined" },
      post_error_of movies rfl, rfl⟩
  · cases hq : extractUserQuery messages with
    | error e =>
      exact Or.inr ⟨{ status := 500, error := e },
        post_error_of movies hq, rfl⟩
    | ok q =>
      exact Or.inl ⟨_, post_ok_of movies hq, rfl⟩

end ChatRoute
